import Mathlib

/-!
Shallow embedding of `spacepy/pycdf/istp.py` (ISTP-compliance checks and
metadata inference for CDF files), together with theorems settling the
frozen claims about it.

Conventions of the embedding:
* CDF numeric type codes become the closed enumeration `Istp.CDFType`.
* Numeric attribute and data values are modelled as exact rationals `ℚ`
  (the source works in Python floats / numpy arrays).
* Python functions that can raise become `Except Istp.PyErr _`.
* A variable carries both its raw view (`rawData`, what
  `cdf_file.raw_var(name)[...]` yields) and its scaled view
  (`scaledData`, what `v[...]` yields); for time-typed variables the
  decoded timestamps are `timeData` (ordered, as in datetime arithmetic)
  and rendering a timestamp to its `YYYYMMDD` string (`strftime`) is an
  external capability passed as a function `dateOf`.
* Error messages built by `str.format` become the structured
  `Istp.Finding` constructors carrying exactly the interpolated fields.
-/
namespace Istp

/-- The closed enumeration of CDF type codes used by the module
(`spacepy.pycdf.const.CDF_*.value`). -/
inductive CDFType where
  | byte | int1 | int2 | int4 | int8
  | uint1 | uint2 | uint4
  | real4 | float | real8 | double
  | epoch | epoch16 | tt2000
  | char | uchar
  deriving DecidableEq, Repr

/-- Attribute values: numeric scalars, strings, or pairs of numerics
(the CDF_EPOCH16 fill value). -/
inductive AttrVal where
  | num (q : ℚ)
  | str (s : String)
  | pair (a b : ℚ)
  deriving DecidableEq, Repr

/-- Python exceptions that the embedded functions can raise. -/
inductive PyErr where
  | keyError (k : String)
  | unboundLocal (n : String)
  | valueError (msg : String)
  | typeError
  | mathDomain
  deriving DecidableEq, Repr

/-- A CDF variable: name, type code, attributes, raw and scaled data
views (flattened), decoded time data for time-typed variables, and the
element length for character types (`v._nelems()`). -/
structure Var where
  name : String
  type : CDFType
  attrs : String → Option AttrVal
  rawData : List ℚ
  scaledData : List ℚ
  timeData : List ℤ
  nelems : ℕ

/-- A CDF file: base name of its path and its variables in iteration
order. -/
structure CDFFile where
  basename : String
  vars : List Var

/-- Coerce an attribute value to a number, as Python arithmetic on the
value would (non-numeric operands raise). -/
def attrNum : AttrVal → Except PyErr ℚ
  | .num q => .ok q
  | _ => .error .typeError

/-- The three time representations
(CDF_EPOCH, CDF_EPOCH16, CDF_TIME_TT2000). -/
def timeTypes : List CDFType := [.epoch, .epoch16, .tt2000]

/-- The integer-family type codes handled by the first branch of
`format`. -/
def intTypes : List CDFType :=
  [.int1, .int2, .int4, .int8, .uint1, .uint2, .uint4, .byte]

/-- The float/double type codes handled by the float branch of
`format`. -/
def floatTypes : List CDFType := [.real8, .real4, .float, .double]

/-- Source `get_max`: maximum representable value of a type
code, `ValueError` on an unknown code.  Note the chain has no arm for
`CDF_EPOCH16`. -/
def get_max (t : CDFType) : Except PyErr ℚ :=
  if t = .byte ∨ t = .int1 ∨ t = .char then .ok 127
  else if t = .uint1 ∨ t = .uchar then .ok 255
  else if t = .int2 then .ok 32767
  else if t = .uint2 then .ok 65535
  else if t = .int4 then .ok 2147483647
  else if t = .uint4 then .ok 4294967295
  else if t = .int8 then .ok 9223372036854775807
  else if t = .real4 ∨ t = .float then .ok (34 * 10 ^ 37)
  else if t = .real8 ∨ t = .double ∨ t = .epoch then .ok (10 ^ 4932)
  else if t = .tt2000 then .ok 9223372036854775807
  else .error (.valueError "Unknown data type")

/-- Source `get_min`: minimum representable value of a type
code, `ValueError` on an unknown code.  As with `get_max`, there is no
arm for `CDF_EPOCH16`. -/
def get_min (t : CDFType) : Except PyErr ℚ :=
  if t = .byte ∨ t = .int1 ∨ t = .char then .ok (-128)
  else if t = .uint1 ∨ t = .uint2 ∨ t = .uint4 ∨ t = .uchar then .ok 0
  else if t = .int2 then .ok (-32768)
  else if t = .int4 then .ok (-2147483648)
  else if t = .int8 then .ok (-9223372036854775808)
  else if t = .real4 ∨ t = .float then .ok (-(34 * 10 ^ 37))
  else if t = .real8 ∨ t = .double ∨ t = .epoch then .ok (-(10 ^ 4932))
  else if t = .tt2000 then .ok (-9223372036854775808)
  else .error (.valueError "Unknown data type")

/-- The fill-value table built at the top of `fillval`: signed ints get
`-2^(8i-1)`, unsigned ints get `2^(8i)-1`, reals get `-1e31`, EPOCH16
gets the pair, chars get a space, and TT2000/EPOCH/BYTE/FLOAT/DOUBLE
alias INT8/REAL8/INT1/REAL4/REAL8 respectively. -/
def fillvals : CDFType → AttrVal
  | .int1 => .num (-(2 ^ 7))
  | .int2 => .num (-(2 ^ 15))
  | .int4 => .num (-(2 ^ 31))
  | .int8 => .num (-(2 ^ 63))
  | .uint1 => .num (2 ^ 8 - 1)
  | .uint2 => .num (2 ^ 16 - 1)
  | .uint4 => .num (2 ^ 32 - 1)
  | .epoch16 => .pair (-(10 ^ 31)) (-(10 ^ 31))
  | .real8 => .num (-(10 ^ 31))
  | .real4 => .num (-(10 ^ 31))
  | .char => .str " "
  | .uchar => .str " "
  | .tt2000 => .num (-(2 ^ 63))     -- aliases CDF_INT8
  | .epoch => .num (-(10 ^ 31))     -- aliases CDF_REAL8
  | .byte => .num (-(2 ^ 7))        -- aliases CDF_INT1
  | .float => .num (-(10 ^ 31))     -- aliases CDF_REAL4
  | .double => .num (-(10 ^ 31))    -- aliases CDF_REAL8

/-- Delete an attribute (`del v.attrs[k]`). -/
def delAttr (v : Var) (k : String) : Var :=
  { v with attrs := fun s => if s = k then none else v.attrs s }

/-- Create an attribute (`v.attrs.new(k, data=val, ...)`). -/
def newAttr (v : Var) (k : String) (val : AttrVal) : Var :=
  { v with attrs := fun s => if s = k then some val else v.attrs s }

/-- Source `fillval`: delete any existing FILLVAL, then create
it from the type code alone. -/
def fillval (v : Var) : Var :=
  newAttr (if (v.attrs "FILLVAL").isSome then delAttr v "FILLVAL" else v)
    "FILLVAL" (fillvals v.type)

/-- Python `int()` truncation toward zero of a rational. -/
def pyTrunc (q : ℚ) : ℤ := if 0 ≤ q then ⌊q⌋ else -⌊-q⌋

/-- Python `str(int(q))`, as a Lean string. -/
def pyIntStr (q : ℚ) : String := toString (pyTrunc q)

/-- Python `int(math.log10(q))`: truncation toward zero of the base-10
logarithm, `math domain error` for non-positive arguments.  For `q ≥ 1`
this is `Nat.log 10 ⌊q⌋` (the digit count of the integer part, minus
one); for `0 < q < 1` truncation toward zero gives `-⌊log10 (1/q)⌋`. -/
def pyTruncLog10 (q : ℚ) : Except PyErr ℤ :=
  if q ≤ 0 then .error .mathDomain
  else if 1 ≤ q then .ok (Nat.log 10 ⌊q⌋.toNat)
  else .ok (-(Nat.log 10 ⌊1 / q⌋.toNat : ℤ))

/-- The generator `next(i for i in (1, 2, 4, 8) if CDF_INT{i}.value ==
cdftype)` of the integer branch of `format`: byte size of a signed
integer code, `StopIteration` otherwise. -/
def signedSize (t : CDFType) : Except PyErr ℕ :=
  match t with
  | .int1 => .ok 1
  | .int2 => .ok 2
  | .int4 => .ok 4
  | .int8 => .ok 8
  | _ => .error (.valueError "StopIteration")

/-- The generator `next((8 * i for i in (1, 2, 4) if CDF_UINT{i}.value ==
cdftype), None)`: bit size of an unsigned integer code. -/
def uintBits (t : CDFType) : Option ℕ :=
  match t with
  | .uint1 => some 8
  | .uint2 => some 16
  | .uint4 => some 32
  | _ => none

/-- The `minval` of the integer branch of `format`: the chosen min attribute
if present, else 0 for unsigned, else `-2^7` for BYTE, else
`-2^(8*size-1)` for signed. -/
def intMinval (v : Var) (minn : String) : Except PyErr ℚ :=
  match v.attrs minn with
  | some a => attrNum a
  | none =>
    if v.type = .uint1 ∨ v.type = .uint2 ∨ v.type = .uint4 then .ok 0
    else if v.type = .byte then .ok (-(2 ^ 7))
    else do
      let size ← signedSize v.type
      pure (-((2 : ℚ) ^ (8 * size - 1)))

/-- The `maxval` of the integer branch of `format`: the chosen max attribute
if present, else `2^7 - 1` for BYTE, else `2^bits - 1` for unsigned,
else `2^(8*size-1) - 1` for signed. -/
def intMaxval (v : Var) (maxx : String) : Except PyErr ℚ :=
  match v.attrs maxx with
  | some a => attrNum a
  | none =>
    if v.type = .byte then .ok (2 ^ 7 - 1)
    else
      match uintBits v.type with
      | some bits => .ok ((2 : ℚ) ^ bits - 1)
      | none => do
        let s ← signedSize v.type
        pure ((2 : ℚ) ^ (8 * s - 1) - 1)

/-- The `range` computation of the float branch of `format`:
`SCALEMAX - SCALEMIN` if both present, else `VALIDMAX - VALIDMIN` if
both present, else `None`. -/
def floatRange (v : Var) : Except PyErr (Option ℚ) :=
  match v.attrs "SCALEMIN", v.attrs "SCALEMAX" with
  | some a, some b => do
    let x ← attrNum a
    let y ← attrNum b
    pure (some (y - x))
  | _, _ =>
    match v.attrs "VALIDMIN", v.attrs "VALIDMAX" with
    | some a, some b => do
      let x ← attrNum a
      let y ← attrNum b
      pure (some (y - x))
    | _, _ => pure none

/-- The local `ln` of the float branch of `format`: assigned (to the
longer of `str(int(maxx))` and `str(int(minn))`) only when the computed
range is truthy and both chosen attributes are present; `none` models
the name staying unbound. -/
def floatLn (v : Var) (minn maxx : String) (rng : Option ℚ) :
    Except PyErr (Option String) :=
  match rng with
  | some r =>
    if r ≠ 0 then
      match v.attrs minn, v.attrs maxx with
      | some a, some b => do
        let mi ← attrNum a
        let mx ← attrNum b
        pure (some (if (pyIntStr mx).length ≥ (pyIntStr mi).length
                    then pyIntStr mx else pyIntStr mi))
      | _, _ => pure none
    else pure none
  | none => pure none

/-- The FORMAT token computed by `format` from the source (the value
written, or printed in dryrun mode).  Mirrors the type-code dispatch:
integer family, the three time types, float/double family, character
types, and a `ValueError` fall-through. -/
def computeFormat (v : Var) (use_scaleminmax : Bool) : Except PyErr String := do
  let minn := if use_scaleminmax then "SCALEMIN" else "VALIDMIN"
  let maxx := if use_scaleminmax then "SCALEMAX" else "VALIDMAX"
  if v.type ∈ intTypes then do
    let minval ← intMinval v minn
    let maxval ← intMaxval v maxx
    if minval < 0 then do
      -- extra space for the negative sign
      let l ← pyTruncLog10 (max (max |maxval| |minval|) 1)
      pure ("I" ++ toString (l + 2))
    else
      if maxval ≠ 0 then do
        let l ← pyTruncLog10 maxval
        pure ("I" ++ toString (l + 1))
      else
        pure ("I" ++ toString ((1 : ℤ) + 1))
  else if v.type = .tt2000 then
    pure ("A" ++ toString ("9999-12-31T23:59:59.999999999".length))
  else if v.type = .epoch16 then
    pure ("A" ++ toString ("31-Dec-9999 23:59:59.999.999.000.000".length))
  else if v.type = .epoch then
    pure ("A" ++ toString ("31-Dec-9999 23:59:59.999".length))
  else if v.type ∈ floatTypes then do
    let rng ← floatRange v
    let ln ← floatLn v minn maxx rng
    match rng with
    | some r =>
      if r ≠ 0 then
        match ln with
        -- `if range and ln and range < 0` reads `ln`, which is unbound here
        | none => .error (.unboundLocal "ln")
        | some l =>
          -- negative range is replaced by None, so every later guard fails
          if r < 0 then pure "G10.2E3"
          else if r ≤ 11 then pure ("F" ++ toString (l.length + 4) ++ ".3")
          else if r ≤ 101 then pure ("F" ++ toString (l.length + 3) ++ ".2")
          else if r ≤ 1000 then pure ("F" ++ toString (l.length + 2) ++ ".1")
          else pure "G10.2E3"
      else pure "G10.2E3"
    | none => pure "G10.2E3"
  else if v.type = .char ∨ v.type = .uchar then
    pure ("A" ++ toString v.nelems)
  else
    .error (.valueError "Could not find FORMAT")

/-- Source `format` (non-dryrun): compute the token, delete any
existing FORMAT attribute and re-create it with the token. -/
def format (v : Var) (use_scaleminmax : Bool) : Except PyErr Var := do
  let fmt ← computeFormat v use_scaleminmax
  pure (newAttr (if (v.attrs "FORMAT").isSome then delAttr v "FORMAT" else v)
    "FORMAT" (.str fmt))

/-- The error messages emitted by the checks, with the interpolated
fields of each message template carried structurally. -/
inductive Finding where
  | underMin (vals : List ℚ) (idxs : List ℕ) (bound : ℚ)
  | overMax (vals : List ℚ) (idxs : List ℕ) (bound : ℚ)
  | minOutside (val mn mx : ℚ) (vname : String)
  | maxOutside (val mn mx : ℚ) (vname : String)
  | minGtMax (vname : String)
  | scaleMinOutside (val mn mx : ℚ) (vname : String)
  | scaleMaxOutside (val mn mx : ℚ) (vname : String)
  | scaleMinGtMax (vname : String)
  | nonmonotonic (vname : String) (recs : List ℕ)
  | cannotParseDate (fname : String)
  | multipleDays (vname : String) (dates : List String)
  | dateMismatch (vname : String) (date : String) (fname : String)
  deriving DecidableEq, Repr

/-- Numpy `isclose` with the default tolerances
(`|a - b| <= atol + rtol * |b|`, `rtol = 1e-5`, `atol = 1e-8`). -/
def isclose (a b : ℚ) : Bool :=
  decide (|a - b| ≤ 1 / 10 ^ 8 + (1 / 10 ^ 5) * |b|)

/-- The boolean mask `data < bound` on a numpy array. -/
def maskLt (data : List ℚ) (bound : ℚ) : List Bool :=
  data.map (fun d => decide (d < bound))

/-- The boolean mask `data > bound` on a numpy array. -/
def maskGt (data : List ℚ) (bound : ℚ) : List Bool :=
  data.map (fun d => decide (d > bound))

/-- Numpy `logical_and(mask, logical_not(isclose(data, f)))`. -/
def excludeFill (data : List ℚ) (mask : List Bool) (f : ℚ) : List Bool :=
  List.zipWith (fun d m => m && !isclose d f) data mask

/-- Fancy indexing `xs[mask]`. -/
def selectMask {α : Type} : List α → List Bool → List α
  | x :: xs, b :: bs =>
    if b then x :: selectMask xs bs else selectMask xs bs
  | _, _ => []

/-- Positions of the `true` entries of a mask starting at offset `n`
(`numpy.nonzero(mask)[0]`, generalized for induction). -/
def trueIdxAux : ℕ → List Bool → List ℕ
  | n, b :: bs => if b then n :: trueIdxAux (n + 1) bs else trueIdxAux (n + 1) bs
  | _, [] => []

/-- Numpy `nonzero(mask)[0]` for a flat mask. -/
def trueIdx (mask : List Bool) : List ℕ := trueIdxAux 0 mask

namespace VariableChecks

/-- The `if 'VALIDMIN' in raw_v.attrs:` block of `validrange`: report the
values under VALIDMIN (fill-excluded when FILLVAL is present and the
data is non-empty), then report VALIDMIN outside the type's range. -/
def vrMinBlock (v : Var) (data : List ℚ) : Except PyErr (List Finding) :=
  match v.attrs "VALIDMIN" with
  | none => .ok []
  | some a => do
    let vmin ← attrNum a
    let idx0 := maskLt data vmin
    let idx ← (match v.attrs "FILLVAL" with
      | some fa =>
        if data.length ≠ 0 then do
          let f ← attrNum fa
          pure (excludeFill data idx0 f)
        else pure idx0
      | none => pure idx0)
    let e1 := if idx.any id then
        [Finding.underMin (selectMask v.scaledData idx) (trueIdx idx) vmin]
      else []
    let mn ← get_min v.type
    let mx ← get_max v.type
    let e2 := if vmin < mn ∨ vmin > mx then
        [Finding.minOutside vmin mn mx v.name]
      else []
    pure (e1 ++ e2)

/-- The `if 'VALIDMAX' in raw_v.attrs:` block of `validrange`: report
the values over VALIDMAX (fill-excluded when FILLVAL is present),
then the out-of-type-range report.  Two faithful quirks of the source:
the block reads `raw_v.attrs['VALIDMIN']` (KeyError when absent), and
the condition tests `VALIDMIN < get_min` rather than `VALIDMAX <
get_min`. -/
def vrMaxBlock (v : Var) (data : List ℚ) : Except PyErr (List Finding) :=
  match v.attrs "VALIDMAX" with
  | none => .ok []
  | some a => do
    let vmax ← attrNum a
    let idx0 := maskGt data vmax
    let idx ← (match v.attrs "FILLVAL" with
      | some fa => do
        let f ← attrNum fa
        pure (excludeFill data idx0 f)
      | none => pure idx0)
    let e1 := if idx.any id then
        [Finding.overMax (selectMask v.scaledData idx) (trueIdx idx) vmax]
      else []
    let vminAttr ← (match v.attrs "VALIDMIN" with
      | some a2 => Except.ok a2
      | none => Except.error (PyErr.keyError "VALIDMIN"))
    let vmin ← attrNum vminAttr
    let mn ← get_min v.type
    let mx ← get_max v.type
    let e2 := if vmin < mn ∨ vmax > mx then
        [Finding.maxOutside vmax mn mx v.name]
      else []
    pure (e1 ++ e2)

/-- The final `VALIDMIN > VALIDMAX` comparison of `validrange`. -/
def vrMinMaxBlock (v : Var) : Except PyErr (List Finding) :=
  match v.attrs "VALIDMIN", v.attrs "VALIDMAX" with
  | some a, some b => do
    let x ← attrNum a
    let y ← attrNum b
    pure (if x > y then [Finding.minGtMax v.name] else [])
  | _, _ => .ok []

/-- Source `VariableChecks.validrange`: data compared against
VALIDMIN/VALIDMAX on the raw view, offending scaled values reported
with their flat indices, plus the attribute-vs-type-range and
min-vs-max reports. -/
def validrange (v : Var) : Except PyErr (List Finding) := do
  let data := v.rawData
  let e1 ← vrMinBlock v data
  let e2 ← vrMaxBlock v data
  let e3 ← vrMinMaxBlock v
  pure (e1 ++ e2 ++ e3)

/-- The `SCALEMIN` block of `validscale`. -/
def vsMinBlock (v : Var) : Except PyErr (List Finding) :=
  match v.attrs "SCALEMIN" with
  | none => .ok []
  | some a => do
    let smin ← attrNum a
    let mn ← get_min v.type
    let mx ← get_max v.type
    pure (if smin < mn ∨ smin > mx then
        [Finding.scaleMinOutside smin mn mx v.name]
      else [])

/-- The `SCALEMAX` block of `validscale`. -/
def vsMaxBlock (v : Var) : Except PyErr (List Finding) :=
  match v.attrs "SCALEMAX" with
  | none => .ok []
  | some a => do
    let smax ← attrNum a
    let mn ← get_min v.type
    let mx ← get_max v.type
    pure (if smax < mn ∨ smax > mx then
        [Finding.scaleMaxOutside smax mn mx v.name]
      else [])

/-- The final `SCALEMIN > SCALEMAX` comparison of `validscale`. -/
def vsMinMaxBlock (v : Var) : Except PyErr (List Finding) :=
  match v.attrs "SCALEMIN", v.attrs "SCALEMAX" with
  | some a, some b => do
    let x ← attrNum a
    let y ← attrNum b
    pure (if x > y then [Finding.scaleMinGtMax v.name] else [])
  | _, _ => .ok []

/-- Source `VariableChecks.validscale`. -/
def validscale (v : Var) : Except PyErr (List Finding) := do
  let e1 ← vsMinBlock v
  let e2 ← vsMaxBlock v
  let e3 ← vsMinMaxBlock v
  pure (e1 ++ e2 ++ e3)

end VariableChecks

/-- Numpy `diff`: adjacent differences of the decoded timestamps. -/
def diffList : List ℤ → List ℤ
  | a :: b :: rest => (b - a) :: diffList (b :: rest)
  | _ => []

namespace FileChecks

/-- Loop body of `time_monoton` for one variable: for a time-typed
variable, `idx = numpy.where(numpy.diff(data) < timedelta(0))[0]`; the
guard `if not any(idx)` is truthiness over the *index values*, so it
skips the variable unless some decreasing position is nonzero; the
finding cites each index plus one. -/
def timeMonotonVar (v : Var) : Option Finding :=
  if v.type ∈ timeTypes then
    let idx := trueIdx ((diffList v.timeData).map (fun d => decide (d < 0)))
    if idx.any (fun i => i ≠ 0) then
      some (.nonmonotonic v.name (idx.map (· + 1)))
    else none
  else none

/-- Source `FileChecks.time_monoton`. -/
def time_monoton (f : CDFFile) : List Finding :=
  f.vars.filterMap timeMonotonVar

/-- Python `re.search` for eight consecutive digits: leftmost run of eight consecutive
digit characters. -/
def find8 : List Char → Option (List Char)
  | [] => none
  | c :: rest =>
    if ((c :: rest).take 8).length = 8 ∧ ((c :: rest).take 8).all (·.isDigit)
    then some ((c :: rest).take 8)
    else find8 rest

/-- Loop body of `times` for one variable, given the expected `YYYYMMDD`
string and the `strftime('%Y%m%d')` rendering `dateOf` of decoded
timestamps: `datestrs = list(set(...))`; empty is accepted, several
distinct dates give a multiple-days finding (sorted), and a single
non-matching date a mismatch finding. -/
def timesVarErr (expected fname : String) (dateOf : ℤ → String)
    (v : Var) : Option Finding :=
  if v.type ∈ timeTypes then
    match (v.timeData.map dateOf).dedup with
    | [] => none
    | [d] => if d ≠ expected then some (.dateMismatch v.name d fname) else none
    | ds => some (.multipleDays v.name (ds.insertionSort (· ≤ ·)))
  else none

/-- Source `FileChecks.times`: parse the expected date out of
the file's base name (a file-level error, checking no variables, when
there is no 8-digit run), then check every time-typed variable. -/
def times (dateOf : ℤ → String) (f : CDFFile) : List Finding :=
  match find8 f.basename.toList with
  | none => [.cannotParseDate f.basename]
  | some ds => f.vars.filterMap (timesVarErr (String.mk ds) f.basename dateOf)

end FileChecks

/-- The fill-value rule as the spec words it: signed n-byte integers get
`-2^(8n-1)`; unsigned n-byte integers (n in 1, 2, 4) get `2^(8n)-1`;
both float widths, double, and the tick-based epoch-as-double type get
`-1e31`; the 16-byte dual-double epoch type gets the pair; character
types get a single space; the nanosecond-integer time type takes the
8-byte signed integer's fill value and the byte type the 1-byte signed
integer's. -/
def fillvalPerSpec : CDFType → AttrVal
  | .int1 => .num (-(2 ^ (8 * 1 - 1)))
  | .int2 => .num (-(2 ^ (8 * 2 - 1)))
  | .int4 => .num (-(2 ^ (8 * 4 - 1)))
  | .int8 => .num (-(2 ^ (8 * 8 - 1)))
  | .uint1 => .num (2 ^ (8 * 1) - 1)
  | .uint2 => .num (2 ^ (8 * 2) - 1)
  | .uint4 => .num (2 ^ (8 * 4) - 1)
  | .real4 | .real8 | .float | .double | .epoch => .num (-(10 ^ 31))
  | .epoch16 => .pair (-(10 ^ 31)) (-(10 ^ 31))
  | .char | .uchar => .str " "
  | .tt2000 => .num (-(2 ^ (8 * 8 - 1)))
  | .byte => .num (-(2 ^ (8 * 1 - 1)))

/-- A time-typed (CDF_EPOCH) variable with the given decoded
timestamps and no attributes. -/
def mkTimeVar (nm : String) (data : List ℤ) : Var :=
  { name := nm, type := .epoch, attrs := fun _ => none,
    rawData := [], scaledData := [], timeData := data, nelems := 0 }

/-- A float variable carrying only VALIDMAX, for C2. -/
def varOnlyValidmax : Var :=
  { name := "a", type := .real4,
    attrs := fun s => if s = "VALIDMAX" then some (.num 10) else none,
    rawData := [1], scaledData := [1], timeData := [], nelems := 0 }

/-- A float variable carrying only SCALEMIN/SCALEMAX, for C2. -/
def varOnlyScale : Var :=
  { name := "b", type := .real4,
    attrs := fun s =>
      if s = "SCALEMIN" then some (.num 0)
      else if s = "SCALEMAX" then some (.num 5) else none,
    rawData := [], scaledData := [], timeData := [], nelems := 0 }

/-- Number of decimal digits of a natural number (1 for 0). -/
def natDigits (n : ℕ) : ℕ := Nat.log 10 n + 1

instance {ε α : Type} [DecidableEq ε] [DecidableEq α] :
    DecidableEq (Except ε α) := fun
  | .ok a, .ok b => decidable_of_iff (a = b) (by simp)
  | .error e, .error e' => decidable_of_iff (e = e') (by simp)
  | .ok _, .error _ => isFalse (fun h => Except.noConfusion h)
  | .error _, .ok _ => isFalse (fun h => Except.noConfusion h)

/-- An INT1 variable with in-range VALIDMIN and a VALIDMAX far below the
type minimum, for C3. -/
def varValidmaxBelowTypeMin : Var :=
  { name := "v3", type := .int1,
    attrs := fun s =>
      if s = "VALIDMIN" then some (.num 0)
      else if s = "VALIDMAX" then some (.num (-300)) else none,
    rawData := [], scaledData := [], timeData := [], nelems := 0 }

/-- An INT1 variable with VALIDMIN = 0 and VALIDMAX = 0, for the C6
counterexample. -/
def varIntZeroZero : Var :=
  { name := "z", type := .int1,
    attrs := fun s =>
      if s = "VALIDMIN" then some (.num 0)
      else if s = "VALIDMAX" then some (.num 0) else none,
    rawData := [], scaledData := [], timeData := [], nelems := 0 }

/-- An INT2 variable with no range attributes, for the C6 witness. -/
def varInt2Bare : Var :=
  { name := "w", type := .int2, attrs := fun _ => none,
    rawData := [], scaledData := [], timeData := [], nelems := 0 }

/-- The float-branch format rule as the spec words it, amended at range
zero: width columns come from the longer of `str(int(VALIDMAX))` and
`str(int(VALIDMIN))`; a strictly positive range ≤ 11 gives 3 decimals
and 4 extra columns, ≤ 101 gives 2 and 3, ≤ 1000 gives 1 and 2; any
other case (no range, zero range, negative range, range above 1000)
gives the fixed general-exponential token. -/
def floatFmtPerSpec (r : Option ℚ) (vmin vmax : ℚ) : String :=
  let w := max (pyIntStr vmax).length (pyIntStr vmin).length
  match r with
  | some x =>
    if 0 < x ∧ x ≤ 11 then "F" ++ toString (w + 4) ++ ".3"
    else if 11 < x ∧ x ≤ 101 then "F" ++ toString (w + 3) ++ ".2"
    else if 101 < x ∧ x ≤ 1000 then "F" ++ toString (w + 2) ++ ".1"
    else "G10.2E3"
  | none => "G10.2E3"

/-- A REAL4 variable with VALIDMIN = VALIDMAX = 5 (zero range), for the
C5 counterexample. -/
def varFloat55 : Var :=
  { name := "c5", type := .real4,
    attrs := fun s =>
      if s = "VALIDMIN" then some (.num 5)
      else if s = "VALIDMAX" then some (.num 5) else none,
    rawData := [], scaledData := [], timeData := [], nelems := 0 }

/-- A REAL4 variable with VALIDMIN = 0, VALIDMAX = 9, for the C5
witness. -/
def varFloat09 : Var :=
  { name := "c5w", type := .real4,
    attrs := fun s =>
      if s = "VALIDMIN" then some (.num 0)
      else if s = "VALIDMAX" then some (.num 9) else none,
    rawData := [], scaledData := [], timeData := [], nelems := 0 }

/-- Offending entries of a raw-data scan, written as a direct filter:
flat indices (counted from `n`) paired with the scaled values at the
positions where the raw value satisfies `p`. -/
def offAux : ℕ → List ℚ → List ℚ → (ℚ → Bool) → List (ℕ × ℚ)
  | n, r :: rs, s :: ss, p =>
    if p r then (n, s) :: offAux (n + 1) rs ss p else offAux (n + 1) rs ss p
  | _, _, _, _ => []

/-- A REAL4 variable with VALIDMIN = 0, VALIDMAX = 10, a single data
point 15 and no FILLVAL, for the C7 witness. -/
def varC7 : Var :=
  { name := "c7", type := .real4,
    attrs := fun s =>
      if s = "VALIDMIN" then some (.num 0)
      else if s = "VALIDMAX" then some (.num 10) else none,
    rawData := [15], scaledData := [15], timeData := [], nelems := 0 }

/-- A REAL4 variable carrying only VALIDMAX = 10 with one offending data
point 15, for the C7 counterexample. -/
def varC7only : Var :=
  { name := "c7x", type := .real4,
    attrs := fun s => if s = "VALIDMAX" then some (.num 10) else none,
    rawData := [15], scaledData := [15], timeData := [], nelems := 0 }

/-- C8: for every variable, `fillval` stores under FILLVAL exactly the
fill sentinel that the spec's type-code rule prescribes: signed n-byte
integers `-2^(8n-1)`, unsigned `2^(8n)-1`, float/double/epoch-as-double
`-1e31`, EPOCH16 the pair `(-1e31, -1e31)`, character types a single
space, TT2000 the 8-byte signed fill and BYTE the 1-byte signed fill. -/
theorem fillval_stores_spec_sentinel (v : Var) :
    (fillval v).attrs "FILLVAL" = some (fillvalPerSpec v.type) := by
  have htab : fillvals v.type = fillvalPerSpec v.type := by
    cases v.type <;> rfl
  by_cases h : (v.attrs "FILLVAL").isSome <;>
    simp [fillval, newAttr, delAttr, h, htab]

/-- C9: `fillval` is idempotent — applying it twice leaves the same
stored FILLVAL attribute value as applying it once, since each call
deletes any existing FILLVAL and re-creates it from the type code
alone. -/
theorem fillval_idempotent (v : Var) :
    (fillval (fillval v)).attrs "FILLVAL" = (fillval v).attrs "FILLVAL" := by
  by_cases h : (v.attrs "FILLVAL").isSome <;>
    simp [fillval, newAttr, delAttr, h]

/-- C4 counterexample: contrary to the claim, the 16-byte dual-double
epoch type CDF_EPOCH16 is not handled by `get_min`/`get_max`: both fail
with the unsupported-type error. -/
theorem get_minmax_epoch16_unsupported :
    get_min CDFType.epoch16 = .error (PyErr.valueError "Unknown data type") ∧
    get_max CDFType.epoch16 = .error (PyErr.valueError "Unknown data type") :=
  ⟨rfl, rfl⟩

/-- C4 (amended): for every type code in the supported set other than
CDF_EPOCH16, both `get_min` and `get_max` return a value rather than
failing, and `get_min t ≤ get_max t`. -/
theorem get_min_le_get_max (t : CDFType) (h : t ≠ CDFType.epoch16) :
    ∃ mn mx, get_min t = .ok mn ∧ get_max t = .ok mx ∧ mn ≤ mx := by
  cases t
  case epoch16 => exact absurd rfl h
  all_goals exact ⟨_, _, rfl, rfl, by norm_num⟩

/-- Witness for C4 at CDF_INT4. -/
theorem get_min_le_get_max_witness :
    CDFType.int4 ≠ CDFType.epoch16 ∧
    ∃ mn mx, get_min CDFType.int4 = .ok mn ∧ get_max CDFType.int4 = .ok mx ∧
      mn ≤ mx :=
  ⟨by decide, get_min_le_get_max CDFType.int4 (by decide)⟩

/-- C1: evaluation of `time_monoton` at the claim's inputs.  A
strictly-decreasing first adjacent pair (timestamps `[1, 0]`) yields no
finding at all — `any(idx)` is truthiness over the index values and
index 0 is falsy — and for `[t0, t1, t0]` (here `[0, 5, 0]`) the single
finding cites record 2 (the 0-based index of the smaller value), not 3
as the claim states. -/
theorem time_monoton_first_pair_unreported :
    FileChecks.time_monoton ⟨"f.cdf", [mkTimeVar "Epoch" [1, 0]]⟩ = [] ∧
    FileChecks.time_monoton ⟨"f.cdf", [mkTimeVar "Epoch" [0, 5, 0]]⟩ =
      [Finding.nonmonotonic "Epoch" [2]] :=
  ⟨rfl, rfl⟩

/-- C2: evaluation at the claim's own example configurations.  Contrary
to the claim, `validrange` on a variable carrying VALIDMAX but no
VALIDMIN raises KeyError (the VALIDMAX block reads
`raw_v.attrs['VALIDMIN']`), and `format` on a float variable carrying
SCALEMIN/SCALEMAX but no VALIDMIN/VALIDMAX raises UnboundLocalError
(the guard `if range and ln and range < 0` reads the never-assigned
local `ln`). -/
theorem checks_raise_on_malformed_metadata :
    VariableChecks.validrange varOnlyValidmax =
      .error (PyErr.keyError "VALIDMIN") ∧
    computeFormat varOnlyScale false = .error (PyErr.unboundLocal "ln") := by
  refine ⟨rfl, ?_⟩
  simp [computeFormat, floatRange, floatLn, varOnlyScale, intTypes, floatTypes,
    attrNum, Bind.bind, Except.bind, Pure.pure, Except.pure]

/-- Python `int(math.log10(n))` for an integer `n ≥ 1` is the digit count of
`n` minus one. -/
theorem pyTruncLog10_intCast (n : ℤ) (h : 1 ≤ n) :
    pyTruncLog10 (n : ℚ) = .ok (Nat.log 10 n.toNat : ℤ) := by
  unfold pyTruncLog10
  rw [if_neg (by exact_mod_cast not_le.mpr (by omega : (0 : ℤ) < n)),
    if_pos (by exact_mod_cast h)]
  norm_num [Int.floor_intCast]

/-- Python `int(math.log10(q))` fails on non-positive arguments. -/
theorem pyTruncLog10_nonpos (q : ℚ) (h : q ≤ 0) :
    pyTruncLog10 q = .error .mathDomain := by
  unfold pyTruncLog10
  rw [if_pos h]

/-- Python `int(math.log10(n))` for a natural `n ≥ 1`. -/
theorem pyTruncLog10_natCast (n : ℕ) (h : 1 ≤ n) :
    pyTruncLog10 (n : ℚ) = .ok (Nat.log 10 n : ℤ) := by
  have h2 := pyTruncLog10_intCast (n : ℤ) (by exact_mod_cast h)
  simpa using h2

/-- The longer-string selection used by the float branch of `format`
has the maximum of the two lengths. -/
theorem ifLonger_length (x y : String) :
    (if x.length ≥ y.length then x else y).length = max x.length y.length := by
  by_cases h : x.length ≥ y.length
  · rw [if_pos h, Nat.max_eq_left h]
  · rw [if_neg h, Nat.max_eq_right (Nat.le_of_not_le h)]

theorem exbind_ok {ε α β : Type} (a : α) (f : α → Except ε β) :
    (Except.ok (ε := ε) a >>= f) = f a := rfl

theorem exbind_err {ε α β : Type} (e : ε) (f : α → Except ε β) :
    (Except.error (α := α) e >>= f) = Except.error e := rfl

theorem expure_ok {ε α : Type} (a : α) :
    (pure a : Except ε α) = Except.ok a := rfl

/-- C3: evaluation at a VALIDMAX below the type minimum.  Contrary to
the claim, an INT1 variable (type range [-128, 127]) with VALIDMIN = 0
and VALIDMAX = -300 gets no VALIDMAX-outside-type-range finding — the
VALIDMAX block tests `VALIDMIN < get_min` instead of
`VALIDMAX < get_min` — only the min-exceeds-max finding. -/
theorem validmax_below_type_min_unreported :
    VariableChecks.validrange varValidmaxBelowTypeMin =
      .ok [Finding.minGtMax "v3"] ∧
    Finding.maxOutside (-300) (-128) 127 "v3" ∉ [Finding.minGtMax "v3"] :=
  ⟨rfl, by decide⟩

/-- C6 (amended): for an integer-family variable, with minval/maxval
selected by `intMinval`/`intMaxval` (attribute when present, else the
type's natural range), the token is a fixed-width integer format:
width `digits(max(|minval|, |maxval|, 1)) + 1` when minval is negative;
`digits(maxval)` when minval is non-negative and maxval positive
(which equals the claimed `digits(max(|minval|, |maxval|, 1))` whenever
`minval ≤ maxval`); width 2 when minval is non-negative and maxval is
zero; and a math-domain failure when minval is non-negative and maxval
negative. -/
theorem format_int_width (v : Var) (u : Bool) (miz mxz : ℤ)
    (ht : v.type ∈ intTypes)
    (hmi : intMinval v (if u then "SCALEMIN" else "VALIDMIN") = .ok (miz : ℚ))
    (hmx : intMaxval v (if u then "SCALEMAX" else "VALIDMAX") = .ok (mxz : ℚ)) :
    computeFormat v u =
      if miz < 0 then
        .ok ("I" ++ toString ((natDigits (max (max mxz.natAbs miz.natAbs) 1) : ℤ) + 1))
      else if 0 < mxz then
        .ok ("I" ++ toString (natDigits mxz.natAbs : ℤ))
      else if mxz = 0 then .ok "I2"
      else .error PyErr.mathDomain := by
  simp only [computeFormat, if_pos ht, hmi, hmx, exbind_ok]
  by_cases hneg : miz < 0
  · have hcast : ((miz : ℚ) < 0) := by exact_mod_cast hneg
    rw [if_pos hcast, if_pos hneg]
    have h1 : max (max |(mxz : ℚ)| |(miz : ℚ)|) 1 =
        ((max (max mxz.natAbs miz.natAbs) 1 : ℕ) : ℚ) := by
      push_cast [Int.cast_natAbs]
      rfl
    rw [h1, pyTruncLog10_natCast _ (Nat.le_max_right _ _), exbind_ok, expure_ok]
    have h2 : (Nat.log 10 (max (max mxz.natAbs miz.natAbs) 1) : ℤ) + 2 =
        ((natDigits (max (max mxz.natAbs miz.natAbs) 1) : ℤ)) + 1 := by
      unfold natDigits
      push_cast
      ring
    rw [h2]
  · have hcast : ¬ ((miz : ℚ) < 0) := by exact_mod_cast hneg
    rw [if_neg hcast, if_neg hneg]
    by_cases hz : mxz = 0
    · subst hz
      norm_num
      rfl
    · have hnz : ((mxz : ℚ) ≠ 0) := by exact_mod_cast hz
      rw [if_pos hnz]
      by_cases hpos : 0 < mxz
      · rw [pyTruncLog10_intCast _ (by omega), exbind_ok, expure_ok, if_pos hpos]
        have h3 : (Nat.log 10 mxz.toNat : ℤ) + 1 = (natDigits mxz.natAbs : ℤ) := by
          unfold natDigits
          have h4 : mxz.toNat = mxz.natAbs := by omega
          rw [h4]
          push_cast
          ring
        rw [h3]
      · rw [pyTruncLog10_nonpos _ (by exact_mod_cast (by omega : mxz ≤ 0)),
          exbind_err, if_neg hpos, if_neg hz]

/-- C6 counterexample: an integer variable with VALIDMIN = 0 and
VALIDMAX = 0 gets the token `I2`, while the claimed width
`digits(max(|0|, |0|, 1)) = 1` would give `I1`. -/
theorem format_int_zero_zero :
    computeFormat varIntZeroZero false = .ok "I2" ∧
    natDigits (max (max (0 : ℤ).natAbs (0 : ℤ).natAbs) 1) = 1 := by
  refine ⟨by decide, by simp [natDigits]⟩

theorem intMinvalBareInt2 :
    intMinval varInt2Bare "VALIDMIN" = .ok ((-32768 : ℤ) : ℚ) := by
  unfold intMinval
  norm_num [varInt2Bare]
  rw [if_neg (by decide), if_neg (by decide)]
  norm_num [signedSize, exbind_ok, expure_ok, Except.ok.injEq]

theorem intMaxvalBareInt2 :
    intMaxval varInt2Bare "VALIDMAX" = .ok ((32767 : ℤ) : ℚ) := by
  unfold intMaxval
  norm_num [varInt2Bare]
  rw [if_neg (by decide)]
  norm_num [signedSize, uintBits, exbind_ok, expure_ok, Except.ok.injEq]

/-- Witness for C6 at an INT2 variable with no attributes: the natural
range is [-32768, 32767], minval is negative, and the computed token is
the one the amended claim prescribes (digit count of
max(32767, 32768, 1) = 5, plus one sign column: `I6`). -/
theorem format_int_width_witness :
    varInt2Bare.type ∈ intTypes ∧
    computeFormat varInt2Bare false =
      (if (-32768 : ℤ) < 0 then
        .ok ("I" ++ toString
          ((natDigits (max (max (32767 : ℤ).natAbs (-32768 : ℤ).natAbs) 1) : ℤ) + 1))
      else if 0 < (32767 : ℤ) then
        .ok ("I" ++ toString (natDigits (32767 : ℤ).natAbs : ℤ))
      else if (32767 : ℤ) = 0 then .ok "I2"
      else .error PyErr.mathDomain) :=
  ⟨by decide, format_int_width varInt2Bare false (-32768) 32767
    (by decide) intMinvalBareInt2 intMaxvalBareInt2⟩

/-- For a float/double-typed variable, `format` takes the float branch. -/
theorem computeFormat_float (v : Var) (u : Bool) (ht : v.type ∈ floatTypes) :
    computeFormat v u = (do
      let minn := if u then "SCALEMIN" else "VALIDMIN"
      let maxx := if u then "SCALEMAX" else "VALIDMAX"
      let rng ← floatRange v
      let ln ← floatLn v minn maxx rng
      match rng with
      | some r =>
        if r ≠ 0 then
          match ln with
          | none => .error (.unboundLocal "ln")
          | some l =>
            if r < 0 then pure "G10.2E3"
            else if r ≤ 11 then pure ("F" ++ toString (l.length + 4) ++ ".3")
            else if r ≤ 101 then pure ("F" ++ toString (l.length + 3) ++ ".2")
            else if r ≤ 1000 then pure ("F" ++ toString (l.length + 2) ++ ".1")
            else pure "G10.2E3"
        else pure "G10.2E3"
      | none => pure "G10.2E3") := by
  have h4 : v.type = .real8 ∨ v.type = .real4 ∨ v.type = .float ∨ v.type = .double := by
    simpa [floatTypes] using ht
  unfold computeFormat
  rcases h4 with h | h | h | h <;>
    rw [h] <;>
    rw [if_neg (by decide), if_neg (by decide), if_neg (by decide),
      if_neg (by decide), if_pos (by decide)]

/-- Evaluation of the `ln` local when VALIDMIN/VALIDMAX are present as
numbers (non-scale branch selection). -/
theorem floatLn_valid (v : Var) (a b : ℚ)
    (ha : v.attrs "VALIDMIN" = some (.num a))
    (hb : v.attrs "VALIDMAX" = some (.num b)) (r' : Option ℚ) :
    floatLn v "VALIDMIN" "VALIDMAX" r' = .ok (match r' with
      | some x =>
        if x ≠ 0 then
          some (if (pyIntStr b).length ≥ (pyIntStr a).length
                then pyIntStr b else pyIntStr a)
        else none
      | none => none) := by
  cases r' with
  | none => rfl
  | some x =>
    unfold floatLn
    simp only []
    by_cases hx : x ≠ 0
    · rw [if_pos hx, if_pos hx]
      simp only [ha, hb, attrNum, exbind_ok, expure_ok]
    · rw [if_neg hx, if_neg hx]
      rfl

/-- C5 (amended): for a float/double-typed variable carrying numeric
VALIDMIN and VALIDMAX, the consulted range is SCALEMAX−SCALEMIN when
both scale attributes are present, else VALIDMAX−VALIDMIN; a negative
range is treated as no range rather than an error, and so is a zero
range; a strictly positive range ≤ 11 / ≤ 101 / ≤ 1000 gives 3 / 2 / 1
decimal places with 4 / 3 / 2 extra width columns over the integer-part
digit count, and every other case gives the fixed general-exponential
token. -/
theorem format_float_spec (v : Var) (a b : ℚ) (r : Option ℚ)
    (ht : v.type ∈ floatTypes)
    (ha : v.attrs "VALIDMIN" = some (.num a))
    (hb : v.attrs "VALIDMAX" = some (.num b))
    (hr : floatRange v = .ok r) :
    computeFormat v false = .ok (floatFmtPerSpec r a b) ∧
    ((v.attrs "SCALEMIN" = none ∨ v.attrs "SCALEMAX" = none) →
      r = some (b - a)) ∧
    (∀ s1 s2, v.attrs "SCALEMIN" = some (.num s1) →
      v.attrs "SCALEMAX" = some (.num s2) → r = some (s2 - s1)) := by
  refine ⟨?_, ?_, ?_⟩
  · rw [computeFormat_float v false ht]
    simp only [Bool.false_eq_true, if_false, hr, exbind_ok,
      floatLn_valid v a b ha hb r, expure_ok]
    cases r with
    | none => rfl
    | some x =>
      simp only []
      by_cases hx : x ≠ 0
      · rw [if_pos hx]
        rw [if_pos hx]
        simp only []
        have hw := ifLonger_length (pyIntStr b) (pyIntStr a)
        by_cases hneg : x < 0
        · have c1 : ¬ (0 < x ∧ x ≤ 11) := by rintro ⟨c, _⟩; linarith
          have c2 : ¬ (11 < x ∧ x ≤ 101) := by rintro ⟨c, _⟩; linarith
          have c3 : ¬ (101 < x ∧ x ≤ 1000) := by rintro ⟨c, _⟩; linarith
          rw [if_pos hneg]
          simp only [floatFmtPerSpec]
          rw [if_neg c1, if_neg c2, if_neg c3]
        · have hpos : 0 < x := lt_of_le_of_ne (not_lt.mp hneg) (Ne.symm hx)
          rw [if_neg hneg]
          by_cases h11 : x ≤ 11
          · have d1 : 0 < x ∧ x ≤ 11 := ⟨hpos, h11⟩
            rw [if_pos h11]
            simp only [floatFmtPerSpec]
            rw [if_pos d1, hw]
          · have c1 : ¬ (0 < x ∧ x ≤ 11) := by rintro ⟨_, c⟩; exact h11 c
            rw [if_neg h11]
            by_cases h101 : x ≤ 101
            · have d2 : 11 < x ∧ x ≤ 101 := ⟨not_le.mp h11, h101⟩
              rw [if_pos h101]
              simp only [floatFmtPerSpec]
              rw [if_neg c1, if_pos d2, hw]
            · have c2 : ¬ (11 < x ∧ x ≤ 101) := by rintro ⟨_, c⟩; exact h101 c
              rw [if_neg h101]
              by_cases h1000 : x ≤ 1000
              · have d3 : 101 < x ∧ x ≤ 1000 := ⟨not_le.mp h101, h1000⟩
                rw [if_pos h1000]
                simp only [floatFmtPerSpec]
                rw [if_neg c1, if_neg c2, if_pos d3, hw]
              · have c3 : ¬ (101 < x ∧ x ≤ 1000) := by rintro ⟨_, c⟩; exact h1000 c
                rw [if_neg h1000]
                simp only [floatFmtPerSpec]
                rw [if_neg c1, if_neg c2, if_neg c3]
      · rw [if_neg hx]
        push_neg at hx
        subst hx
        have c1 : ¬ ((0:ℚ) < 0 ∧ (0:ℚ) ≤ 11) := by rintro ⟨c, _⟩; linarith
        have c2 : ¬ ((11:ℚ) < 0 ∧ (0:ℚ) ≤ 101) := by rintro ⟨c, _⟩; linarith
        have c3 : ¬ ((101:ℚ) < 0 ∧ (0:ℚ) ≤ 1000) := by rintro ⟨c, _⟩; linarith
        simp only [floatFmtPerSpec]
        rw [if_neg c1, if_neg c2, if_neg c3]
  · intro hsc
    unfold floatRange at hr
    rcases hsc with h | h
    · simp only [h, ha, hb, attrNum, exbind_ok, expure_ok] at hr
      exact (Except.ok.injEq _ _).mp hr |>.symm
    · cases hmin : v.attrs "SCALEMIN" with
      | none =>
        simp only [hmin, ha, hb, attrNum, exbind_ok, expure_ok] at hr
        exact (Except.ok.injEq _ _).mp hr |>.symm
      | some av =>
        simp only [hmin, h, ha, hb, attrNum, exbind_ok, expure_ok] at hr
        exact (Except.ok.injEq _ _).mp hr |>.symm
  · intro s1 s2 h1 h2
    unfold floatRange at hr
    simp only [h1, h2, attrNum, exbind_ok, expure_ok] at hr
    exact (Except.ok.injEq _ _).mp hr |>.symm

/-- C5 counterexample: a float variable with VALIDMIN = VALIDMAX = 5 has
range 0 ≤ 11, yet `format` writes the general-exponential token, not the
3-decimal fixed format of width `len(str(int(5))) + 4` the claim
prescribes for every range ≤ 11 (zero is falsy in the range guards). -/
theorem format_float_zero_range :
    computeFormat varFloat55 false = .ok "G10.2E3" ∧
    "G10.2E3" ≠ "F" ++ toString ((pyIntStr (5 : ℚ)).length + 4) ++ ".3" := by
  constructor
  · have h5 : floatRange varFloat55 = .ok (some (5 - 5)) := rfl
    have h5' : floatRange varFloat55 = .ok (some 0) := by rw [h5]; norm_num
    rw [computeFormat_float varFloat55 false (by decide)]
    simp only [Bool.false_eq_true, if_false, h5', exbind_ok]
    have hln : floatLn varFloat55 "VALIDMIN" "VALIDMAX" (some 0) = .ok none := rfl
    rw [hln, exbind_ok]
    simp only []
    rw [if_neg (by norm_num : ¬ ((0 : ℚ) ≠ 0))]
    rfl
  · decide

/-- Witness for C5 at a float variable with VALIDMIN = 0, VALIDMAX = 9:
the consulted range is 9, giving the 3-decimal token `F5.3` whose width
is `len(str(int(9))) + 4 = 5`. -/
theorem format_float_spec_witness :
    varFloat09.type ∈ floatTypes ∧
    computeFormat varFloat09 false = .ok (floatFmtPerSpec (some 9) 0 9) ∧
    floatFmtPerSpec (some 9) 0 9 = "F5.3" ∧
    (pyIntStr (9 : ℚ)).length + 4 = 5 := by
  have h0 : floatRange varFloat09 = .ok (some (9 - 0)) := rfl
  have hr : floatRange varFloat09 = .ok (some 9) := by rw [h0]; norm_num
  refine ⟨by decide, ?_, by decide, by decide⟩
  exact (format_float_spec varFloat09 0 9 (some 9) (by decide) rfl rfl hr).1

theorem excludeFill_map (data : List ℚ) (q : ℚ → Bool) (f : ℚ) :
    excludeFill data (data.map q) f =
      data.map (fun d => q d && !isclose d f) := by
  induction data with
  | nil => rfl
  | cons d ds ih =>
    simp only [excludeFill, List.map_cons, List.zipWith_cons_cons] at *
    rw [ih]

theorem selectMask_off (p : ℚ → Bool) (raw : List ℚ) :
    ∀ (n : ℕ) (scaled : List ℚ),
      selectMask scaled (raw.map p) = (offAux n raw scaled p).map Prod.snd := by
  induction raw with
  | nil => intro n scaled; cases scaled <;> rfl
  | cons r rs ih =>
    intro n scaled
    cases scaled with
    | nil => rfl
    | cons s ss =>
      simp only [List.map_cons, selectMask, offAux]
      by_cases h : p r
      · rw [if_pos h, if_pos h, List.map_cons, ih (n + 1) ss]
      · rw [if_neg h, if_neg h]
        exact ih (n + 1) ss

theorem trueIdx_off (p : ℚ → Bool) (raw : List ℚ) :
    ∀ (n : ℕ) (scaled : List ℚ), raw.length ≤ scaled.length →
      trueIdxAux n (raw.map p) = (offAux n raw scaled p).map Prod.fst := by
  induction raw with
  | nil => intro n scaled _; cases scaled <;> rfl
  | cons r rs ih =>
    intro n scaled h
    cases scaled with
    | nil => simp at h
    | cons s ss =>
      have h' : rs.length ≤ ss.length := by simpa using h
      simp only [List.map_cons, trueIdxAux, offAux]
      by_cases hp : p r
      · rw [if_pos hp, if_pos hp, List.map_cons, ih (n + 1) ss h']
      · rw [if_neg hp, if_neg hp]
        exact ih (n + 1) ss h'

theorem any_off (p : ℚ → Bool) (raw : List ℚ) :
    ∀ (n : ℕ) (scaled : List ℚ), raw.length ≤ scaled.length →
      ((raw.map p).any id = true ↔ offAux n raw scaled p ≠ []) := by
  induction raw with
  | nil =>
    intro n scaled _
    constructor
    · intro h; simp at h
    · intro h; cases scaled <;> simp [offAux] at h
  | cons r rs ih =>
    intro n scaled h
    cases scaled with
    | nil => simp at h
    | cons s ss =>
      have h' : rs.length ≤ ss.length := by simpa using h
      simp only [List.map_cons, List.any_cons, offAux, id]
      by_cases hp : p r
      · simp [hp]
      · simp only [hp, Bool.false_or, if_neg (by simp [hp] : ¬ (p r = true))]
        exact ih (n + 1) ss h'

/-- The VALIDMIN block of `validrange` reports exactly the raw values
under the bound that survive the fill exclusion, as scaled values with
flat indices; no out-of-type-range report when VALIDMIN is within the
type's range. -/
theorem vrMinBlock_spec (v : Var) (a : ℚ) (keep : ℚ → Bool)
    (ha : v.attrs "VALIDMIN" = some (.num a))
    (hf : (v.attrs "FILLVAL" = none ∧ keep = fun _ => true) ∨
          (∃ f, v.attrs "FILLVAL" = some (.num f) ∧
            keep = fun d => !isclose d f))
    (hlen : v.rawData.length ≤ v.scaledData.length)
    (tmn tmx : ℚ)
    (hmn : get_min v.type = .ok tmn) (hmx : get_max v.type = .ok tmx)
    (h1 : tmn ≤ a) (h2 : a ≤ tmx) :
    VariableChecks.vrMinBlock v v.rawData = .ok
      (if offAux 0 v.rawData v.scaledData
            (fun d => decide (d < a) && keep d) = [] then []
       else [Finding.underMin
         ((offAux 0 v.rawData v.scaledData
            (fun d => decide (d < a) && keep d)).map Prod.snd)
         ((offAux 0 v.rawData v.scaledData
            (fun d => decide (d < a) && keep d)).map Prod.fst)
         a]) := by
  have hcond : ¬ (a < tmn ∨ a > tmx) := by rintro (h | h) <;> linarith
  unfold VariableChecks.vrMinBlock
  rcases hf with ⟨hfn, hk⟩ | ⟨f, hfs, hk⟩
  · simp only [ha, hfn, attrNum, exbind_ok, expure_ok, hmn, hmx,
      if_neg hcond, List.append_nil]
    have hm : maskLt v.rawData a =
        v.rawData.map (fun d => decide (d < a) && keep d) := by
      simp [maskLt, hk]
    rw [hm, trueIdx, selectMask_off _ v.rawData 0 v.scaledData,
      trueIdx_off _ v.rawData 0 v.scaledData hlen]
    by_cases hoff : offAux 0 v.rawData v.scaledData
        (fun d => decide (d < a) && keep d) = []
    · rw [if_pos hoff,
        if_neg (fun hc =>
          (any_off _ v.rawData 0 v.scaledData hlen).mp hc hoff)]
    · rw [if_neg hoff,
        if_pos ((any_off _ v.rawData 0 v.scaledData hlen).mpr hoff)]
  · simp only [ha, hfs, attrNum, exbind_ok, expure_ok, hmn, hmx,
      if_neg hcond, List.append_nil]
    by_cases hd : v.rawData.length ≠ 0
    · rw [if_pos hd]
      simp only [attrNum, exbind_ok, expure_ok, hmn, hmx, if_neg hcond,
        List.append_nil]
      have hm : excludeFill v.rawData (maskLt v.rawData a) f =
          v.rawData.map (fun d => decide (d < a) && keep d) := by
        simp [maskLt, excludeFill_map, hk]
      rw [hm, trueIdx, selectMask_off _ v.rawData 0 v.scaledData,
        trueIdx_off _ v.rawData 0 v.scaledData hlen]
      by_cases hoff : offAux 0 v.rawData v.scaledData
          (fun d => decide (d < a) && keep d) = []
      · rw [if_pos hoff,
          if_neg (fun hc =>
            (any_off _ v.rawData 0 v.scaledData hlen).mp hc hoff)]
      · rw [if_neg hoff,
          if_pos ((any_off _ v.rawData 0 v.scaledData hlen).mpr hoff)]
    · rw [if_neg hd]
      rw [ne_eq, not_not] at hd
      have hnil : v.rawData = [] := List.length_eq_zero.mp hd
      rw [hnil]
      simp only [expure_ok, exbind_ok, hmn, hmx, if_neg hcond,
        List.append_nil]
      rw [show offAux 0 ([] : List ℚ) v.scaledData
          (fun d => decide (d < a) && keep d) = []
        from by cases v.scaledData <;> rfl]
      rw [if_pos rfl, if_neg (by simp [maskLt])]

/-- The VALIDMAX block of `validrange` reports exactly the raw values
over the bound that survive the fill exclusion, as scaled values with
flat indices; no out-of-type-range report when VALIDMIN is at least the
type minimum and VALIDMAX at most the type maximum (the condition the
source actually tests). -/
theorem vrMaxBlock_spec (v : Var) (a b : ℚ) (keep : ℚ → Bool)
    (ha : v.attrs "VALIDMIN" = some (.num a))
    (hb : v.attrs "VALIDMAX" = some (.num b))
    (hf : (v.attrs "FILLVAL" = none ∧ keep = fun _ => true) ∨
          (∃ f, v.attrs "FILLVAL" = some (.num f) ∧
            keep = fun d => !isclose d f))
    (hlen : v.rawData.length ≤ v.scaledData.length)
    (tmn tmx : ℚ)
    (hmn : get_min v.type = .ok tmn) (hmx : get_max v.type = .ok tmx)
    (h1 : tmn ≤ a) (h3 : b ≤ tmx) :
    VariableChecks.vrMaxBlock v v.rawData = .ok
      (if offAux 0 v.rawData v.scaledData
            (fun d => decide (d > b) && keep d) = [] then []
       else [Finding.overMax
         ((offAux 0 v.rawData v.scaledData
            (fun d => decide (d > b) && keep d)).map Prod.snd)
         ((offAux 0 v.rawData v.scaledData
            (fun d => decide (d > b) && keep d)).map Prod.fst)
         b]) := by
  have hcond : ¬ (a < tmn ∨ b > tmx) := by rintro (h | h) <;> linarith
  unfold VariableChecks.vrMaxBlock
  rcases hf with ⟨hfn, hk⟩ | ⟨f, hfs, hk⟩
  · simp only [hb, hfn, ha, attrNum, exbind_ok, expure_ok, hmn, hmx,
      if_neg hcond, List.append_nil]
    have hm : maskGt v.rawData b =
        v.rawData.map (fun d => decide (d > b) && keep d) := by
      simp [maskGt, hk]
    rw [hm, trueIdx, selectMask_off _ v.rawData 0 v.scaledData,
      trueIdx_off _ v.rawData 0 v.scaledData hlen]
    by_cases hoff : offAux 0 v.rawData v.scaledData
        (fun d => decide (d > b) && keep d) = []
    · rw [if_pos hoff,
        if_neg (fun hc =>
          (any_off _ v.rawData 0 v.scaledData hlen).mp hc hoff)]
    · rw [if_neg hoff,
        if_pos ((any_off _ v.rawData 0 v.scaledData hlen).mpr hoff)]
  · simp only [hb, hfs, ha, attrNum, exbind_ok, expure_ok, hmn, hmx,
      if_neg hcond, List.append_nil]
    have hm : excludeFill v.rawData (maskGt v.rawData b) f =
        v.rawData.map (fun d => decide (d > b) && keep d) := by
      simp [maskGt, excludeFill_map, hk]
    rw [hm, trueIdx, selectMask_off _ v.rawData 0 v.scaledData,
      trueIdx_off _ v.rawData 0 v.scaledData hlen]
    by_cases hoff : offAux 0 v.rawData v.scaledData
        (fun d => decide (d > b) && keep d) = []
    · rw [if_pos hoff,
        if_neg (fun hc =>
          (any_off _ v.rawData 0 v.scaledData hlen).mp hc hoff)]
    · rw [if_neg hoff,
        if_pos ((any_off _ v.rawData 0 v.scaledData hlen).mpr hoff)]

/-- The final VALIDMIN-vs-VALIDMAX comparison of `validrange` is silent
when the bounds are ordered. -/
theorem vrMinMaxBlock_spec (v : Var) (a b : ℚ)
    (ha : v.attrs "VALIDMIN" = some (.num a))
    (hb : v.attrs "VALIDMAX" = some (.num b))
    (h4 : a ≤ b) :
    VariableChecks.vrMinMaxBlock v = .ok [] := by
  unfold VariableChecks.vrMinMaxBlock
  simp only [ha, hb, attrNum, exbind_ok, expure_ok]
  rw [if_neg (by linarith : ¬ a > b)]

/-- C7 counterexample: contrary to the claim's "VALIDMIN and/or
VALIDMAX" scope, a variable carrying only VALIDMAX = 10 with one
offending data point 15 gets no finding at all — `validrange` raises
KeyError on the absent VALIDMIN instead of reporting the value. -/
theorem validrange_only_validmax_no_report :
    VariableChecks.validrange varC7only =
      .error (PyErr.keyError "VALIDMIN") ∧
    VariableChecks.validrange varC7only ≠
      .ok [Finding.overMax [15] [0] 10] :=
  ⟨rfl, fun h => by
    rw [show VariableChecks.validrange varC7only =
      .error (PyErr.keyError "VALIDMIN") from rfl] at h
    exact Except.noConfusion h⟩

/-- C7 (amended): for a variable carrying a numeric VALIDMIN (within
the type's representable range, and not above VALIDMAX when that is
present), `validrange` compares the raw (unscaled) data against the
bounds, excludes — via `numpy.isclose` tolerance, captured by `keep` —
any value close to FILLVAL whenever FILLVAL is present, and reports
exactly the remaining offenders, each as its scaled value paired with
its flat record index: both the under-VALIDMIN and the over-VALIDMAX
ones when VALIDMAX is also present, and just the under-VALIDMIN ones
when VALIDMAX is absent.  (A variable carrying VALIDMAX without
VALIDMIN instead fails with KeyError — the counterexample, and C2.) -/
theorem validrange_spec (v : Var) (a : ℚ) (keep : ℚ → Bool)
    (ha : v.attrs "VALIDMIN" = some (.num a))
    (hf : (v.attrs "FILLVAL" = none ∧ keep = fun _ => true) ∨
          (∃ f, v.attrs "FILLVAL" = some (.num f) ∧
            keep = fun d => !isclose d f))
    (hlen : v.rawData.length ≤ v.scaledData.length)
    (tmn tmx : ℚ)
    (hmn : get_min v.type = .ok tmn) (hmx : get_max v.type = .ok tmx)
    (h1 : tmn ≤ a) (h2 : a ≤ tmx) :
    (∀ b, v.attrs "VALIDMAX" = some (.num b) → b ≤ tmx → a ≤ b →
      VariableChecks.validrange v = .ok
        ((if offAux 0 v.rawData v.scaledData
              (fun d => decide (d < a) && keep d) = [] then []
          else [Finding.underMin
            ((offAux 0 v.rawData v.scaledData
               (fun d => decide (d < a) && keep d)).map Prod.snd)
            ((offAux 0 v.rawData v.scaledData
               (fun d => decide (d < a) && keep d)).map Prod.fst)
            a]) ++
         (if offAux 0 v.rawData v.scaledData
              (fun d => decide (d > b) && keep d) = [] then []
          else [Finding.overMax
            ((offAux 0 v.rawData v.scaledData
               (fun d => decide (d > b) && keep d)).map Prod.snd)
            ((offAux 0 v.rawData v.scaledData
               (fun d => decide (d > b) && keep d)).map Prod.fst)
            b]))) ∧
    (v.attrs "VALIDMAX" = none →
      VariableChecks.validrange v = .ok
        (if offAux 0 v.rawData v.scaledData
             (fun d => decide (d < a) && keep d) = [] then []
         else [Finding.underMin
           ((offAux 0 v.rawData v.scaledData
              (fun d => decide (d < a) && keep d)).map Prod.snd)
           ((offAux 0 v.rawData v.scaledData
              (fun d => decide (d < a) && keep d)).map Prod.fst)
           a])) := by
  constructor
  · intro b hb h3 h4
    unfold VariableChecks.validrange
    simp only []
    rw [vrMinBlock_spec v a keep ha hf hlen tmn tmx hmn hmx h1 h2, exbind_ok,
      vrMaxBlock_spec v a b keep ha hb hf hlen tmn tmx hmn hmx h1 h3, exbind_ok,
      vrMinMaxBlock_spec v a b ha hb h4, exbind_ok, expure_ok,
      List.append_nil]
  · intro hbn
    have hmax0 : VariableChecks.vrMaxBlock v v.rawData = .ok [] := by
      unfold VariableChecks.vrMaxBlock
      rw [hbn]
    have hmm0 : VariableChecks.vrMinMaxBlock v = .ok [] := by
      unfold VariableChecks.vrMinMaxBlock
      rw [ha, hbn]
    unfold VariableChecks.validrange
    simp only []
    rw [vrMinBlock_spec v a keep ha hf hlen tmn tmx hmn hmx h1 h2, exbind_ok,
      hmax0, exbind_ok, hmm0, exbind_ok, expure_ok, List.append_nil,
      List.append_nil]

/-- Witness for C7: VALIDMIN = 0, VALIDMAX = 10, one data point 15, no
FILLVAL — `validrange` reports exactly one finding, citing flat index 0
and value 15. -/
theorem validrange_spec_witness :
    VariableChecks.validrange varC7 = .ok [Finding.overMax [15] [0] 10] := by
  have h := (validrange_spec varC7 0 (fun _ => true) rfl
    (Or.inl ⟨rfl, rfl⟩) (by decide) (-(34 * 10 ^ 37)) (34 * 10 ^ 37)
    rfl rfl (by norm_num) (by norm_num)).1 10 rfl (by norm_num) (by norm_num)
  exact h.trans (by decide)

theorem dedup_const {α : Type} [DecidableEq α] (c : α) :
    ∀ (l : List α), l ≠ [] → (∀ x ∈ l, x = c) → l.dedup = [c] := by
  intro l
  induction l with
  | nil => intro h _; exact absurd rfl h
  | cons a l' ih =>
    intro _ hall
    have hac : a = c := hall a (List.mem_cons_self a l')
    by_cases hl : l' = []
    · subst hl
      subst hac
      simp
    · have hall' : ∀ x ∈ l', x = c := fun x hx =>
        hall x (List.mem_cons_of_mem a hx)
      have hd' : l'.dedup = [c] := ih hl hall'
      have hmem : a ∈ l' := by
        obtain ⟨y, l'', rfl⟩ : ∃ y l'', l' = y :: l'' := by
          cases l' with
          | nil => exact absurd rfl hl
          | cons y l'' => exact ⟨y, l'', rfl⟩
        have hy : y = c := hall' y (List.mem_cons_self _ _)
        rw [hac, ← hy]
        exact List.mem_cons_self _ _
      rw [List.dedup_cons_of_mem hmem, hd']

theorem dedup_two {α : Type} [DecidableEq α] {l : List α} {x y : α}
    (hx : x ∈ l) (hy : y ∈ l) (hxy : x ≠ y) :
    ∃ d1 d2 rest, l.dedup = d1 :: d2 :: rest := by
  match hdd : l.dedup with
  | [] =>
    rw [List.dedup_eq_nil] at hdd
    rw [hdd] at hx
    exact absurd hx (List.not_mem_nil x)
  | [d] =>
    have h1 : x ∈ l.dedup := List.mem_dedup.mpr hx
    have h2 : y ∈ l.dedup := List.mem_dedup.mpr hy
    rw [hdd] at h1 h2
    simp at h1 h2
    exact absurd (h1.trans h2.symm) hxy
  | d1 :: d2 :: rest => exact ⟨d1, d2, rest, rfl⟩

/-- C10: `times` extracts the first 8-digit run of the file's base name
as the expected date: with no such run it returns exactly one
file-level error and checks no variables; otherwise it maps each
variable to at most one finding, and for a time-typed variable zero
records yield nothing, timestamps decoding to two distinct dates yield
a multiple-days finding, and a uniform decoded date different from the
expected one yields a mismatch finding. -/
theorem times_spec (f : CDFFile) (dateOf : ℤ → String) :
    (FileChecks.find8 f.basename.toList = none →
      FileChecks.times dateOf f = [Finding.cannotParseDate f.basename]) ∧
    (∀ ds, FileChecks.find8 f.basename.toList = some ds →
      FileChecks.times dateOf f =
        f.vars.filterMap
          (FileChecks.timesVarErr (String.mk ds) f.basename dateOf) ∧
      ∀ v : Var, v.type ∈ timeTypes →
        (v.timeData = [] →
          FileChecks.timesVarErr (String.mk ds) f.basename dateOf v = none) ∧
        (∀ d1 d2, d1 ∈ v.timeData → d2 ∈ v.timeData →
          dateOf d1 ≠ dateOf d2 →
          ∃ dates,
            FileChecks.timesVarErr (String.mk ds) f.basename dateOf v =
              some (Finding.multipleDays v.name dates)) ∧
        (∀ dexp, v.timeData ≠ [] → (∀ d ∈ v.timeData, dateOf d = dexp) →
          dexp ≠ String.mk ds →
          FileChecks.timesVarErr (String.mk ds) f.basename dateOf v =
            some (Finding.dateMismatch v.name dexp f.basename))) := by
  constructor
  · intro h
    unfold FileChecks.times
    rw [h]
  · intro ds hds
    constructor
    · unfold FileChecks.times
      rw [hds]
    · intro v htype
      refine ⟨?_, ?_, ?_⟩
      · intro he
        simp [FileChecks.timesVarErr, htype, he]
      · intro d1 d2 h1 h2 hne
        have hx : dateOf d1 ∈ v.timeData.map dateOf := List.mem_map_of_mem _ h1
        have hy : dateOf d2 ∈ v.timeData.map dateOf := List.mem_map_of_mem _ h2
        obtain ⟨e1, e2, rest, hdd⟩ := dedup_two hx hy hne
        refine ⟨(e1 :: e2 :: rest).insertionSort (· ≤ ·), ?_⟩
        simp [FileChecks.timesVarErr, htype, hdd]
      · intro dexp hne hall hdiff
        have hmapne : v.timeData.map dateOf ≠ [] := by
          intro hc
          exact hne (List.map_eq_nil_iff.mp hc)
        have hallmap : ∀ x ∈ v.timeData.map dateOf, x = dexp := by
          intro x hx
          obtain ⟨d, hd, rfl⟩ := List.mem_map.mp hx
          exact hall d hd
        have hdd : (v.timeData.map dateOf).dedup = [dexp] :=
          dedup_const dexp _ hmapne hallmap
        simp [FileChecks.timesVarErr, htype, hdd, hdiff]

/-- Witness for C10 at a file named `mission_20200101_v1.cdf` with one
epoch variable whose single timestamp decodes to 2020-01-02: the
expected date parses as `20200101` and `times` reports exactly one
mismatch finding. -/
theorem times_spec_witness :
    FileChecks.find8 ("mission_20200101_v1.cdf").toList =
      some ("20200101".toList) ∧
    FileChecks.times (fun _ => "20200102")
      ⟨"mission_20200101_v1.cdf", [mkTimeVar "Epoch" [100]]⟩ =
      [Finding.dateMismatch "Epoch" "20200102" "mission_20200101_v1.cdf"] := by
  refine ⟨by decide, ?_⟩
  have h := (times_spec ⟨"mission_20200101_v1.cdf", [mkTimeVar "Epoch" [100]]⟩
    (fun _ => "20200102")).2 ("20200101".toList) (by decide)
  exact h.1.trans (by decide)

end Istp
